import Mathlib

/-!
Verification of the layerpack packaging pipeline against its natural-language
specification.  The definitions below are a shallow embedding of the Python
sources under src/layerpack: pure data transformations are Lean functions,
subprocess invocations are abstracted as explicit inputs (standard-output
lines on success, standard-error text on failure), and the filesystem effects
of the archiver are represented by the archive path together with a Boolean
recording whether the archive file remains on disk.
-/

namespace Layerpack

/-- Error taxonomy of src/layerpack/exceptions.py.  `configurationError`
carries the message and the `config_key`; `layerSizeLimitError` carries the
actual and the permitted size in megabytes.  The `noInputError` constructor is
Modelled from the spec: the spec names a distinct `NoInputError` kind for an
empty request list, but no such class exists in src/layerpack/exceptions.py;
it is included only so that statements about that kind can be expressed. -/
inductive LayerpackError where
  | packageNotFoundError (msg : String)
  | dependencyConflictError (msg : String)
  | layerSizeLimitError (actualMb allowedMb : ℚ)
  | configurationError (msg configKey : String)
  | incompatibleRuntimeError (msg : String)
  | noInputError (msg : String)
deriving DecidableEq

/-- Whether an error is the spec's no-input kind. -/
def LayerpackError.isNoInput : LayerpackError → Bool
  | .noInputError _ => true
  | _ => false

instance instDecidableEqExceptLp {ε α : Type} [DecidableEq ε] [DecidableEq α] :
    DecidableEq (Except ε α) := fun x y =>
  match x, y with
  | Except.ok a, Except.ok b =>
    if h : a = b then Decidable.isTrue (h ▸ rfl)
    else Decidable.isFalse (fun hc => h (Except.ok.inj hc))
  | Except.error a, Except.error b =>
    if h : a = b then Decidable.isTrue (h ▸ rfl)
    else Decidable.isFalse (fun hc => h (Except.error.inj hc))
  | Except.ok _, Except.error _ => Decidable.isFalse (fun hc => Except.noConfusion hc)
  | Except.error _, Except.ok _ => Decidable.isFalse (fun hc => Except.noConfusion hc)

/-! ## Archiver: LayerBuilder.create_zip (src/layerpack/layer_builder.py) -/

/-- `LayerBuilder.create_zip`: writes `<output_path>.zip`, then, when
`max_size_mb` is truthy (Python: `if self.max_size_mb:` — `None` and `0` are
falsy), computes the archive size in megabytes (1024×1024-byte units) and, if
it exceeds the ceiling, removes the archive and fails with
`LayerSizeLimitError`; otherwise returns the archive path.  The returned
Boolean records whether the archive file remains on disk afterwards. -/
def create_zip (maxSizeMb : Option ℚ) (output_path : String)
    (zipSizeBytes : ℕ) : Except LayerpackError String × Bool :=
  let zip_path := output_path ++ ".zip"
  match maxSizeMb with
  | none => (Except.ok zip_path, true)
  | some m =>
    if m = 0 then (Except.ok zip_path, true)
    else
      let size_mb : ℚ := (zipSizeBytes : ℚ) / (1024 * 1024)
      if size_mb > m then
        (Except.error (LayerpackError.layerSizeLimitError size_mb m), false)
      else (Except.ok zip_path, true)

/-! ## Configuration: LambdaPackagerConfig (src/layerpack/packager.py) -/

/-- The configuration record of `LambdaPackagerConfig`, with the source's
default field values. -/
structure LambdaPackagerConfig where
  excludePackages : List String := []
  includeSource : List String := []
  optimizationLevel : ℤ := 1
  maxSizeMb : ℚ := 250
  compatibleRuntimes : List String := ["python3.9"]
  stripTestFiles : Bool := true
  includeDependencies : Bool := true

/-- The fixed set of supported runtime identifiers
(`valid_runtimes` in `LambdaPackagerConfig._validate_config`). -/
def validRuntimes : List String :=
  ["python3.7", "python3.8", "python3.9", "python3.10", "python3.11"]

/-- `LambdaPackagerConfig._validate_config`, run by `__post_init__` at
construction: rejects an optimization level outside 0–2, then a non-positive
size ceiling, then any runtime identifier outside `validRuntimes`. -/
def validate_config (cfg : LambdaPackagerConfig) : Except LayerpackError Unit :=
  if ¬ (0 ≤ cfg.optimizationLevel ∧ cfg.optimizationLevel ≤ 2) then
    Except.error (LayerpackError.configurationError
      "Invalid optimization level. Must be 0, 1, or 2" "optimization_level")
  else if cfg.maxSizeMb ≤ 0 then
    Except.error (LayerpackError.configurationError
      "Maximum size must be positive" "max_size_mb")
  else
    let invalid := cfg.compatibleRuntimes.filter (fun r => decide (r ∉ validRuntimes))
    if invalid ≠ [] then
      Except.error (LayerpackError.configurationError
        ("Invalid runtimes: " ++ String.intercalate ", " invalid) "compatible_runtimes")
    else Except.ok ()

/-! ## Resolver adapter: DependencyManager.resolve_dependencies
(src/layerpack/dependency_manager.py)

The backend subprocess (`uv pip compile` or the `pip freeze` fallback) is
abstracted as an explicit argument of type `Except String (List String)`:
`Except.error stderr` is a failed run carrying its standard-error text, and
`Except.ok lines` is a successful run carrying its standard-output lines. -/

/-- Whether the character list `ns` is an initial segment of `hs`. -/
def leadsWith : List Char → List Char → Bool
  | [], _ => true
  | _ :: _, [] => false
  | n :: ns, h :: hs => n == h && leadsWith ns hs

/-- Whether `ns` occurs contiguously somewhere in the character list. -/
def containsRun (ns : List Char) : List Char → Bool
  | [] => ns.isEmpty
  | h :: t => leadsWith ns (h :: t) || containsRun ns t

/-- Python's `needle in hay` on strings. -/
def strContains (hay needle : String) : Bool :=
  containsRun needle.data hay.data

/-- Python's default `str.strip()` whitespace set. -/
def isPySpace (c : Char) : Bool :=
  c == ' ' || c == '\t' || c == '\n' || c == '\r' || c == '\x0b' || c == '\x0c'

/-- Drop the leading characters satisfying `p`. -/
def dropLeading (p : Char → Bool) : List Char → List Char
  | [] => []
  | c :: cs => if p c then dropLeading p cs else c :: cs

/-- Python's `str.strip()`: remove leading and trailing whitespace. -/
def pyStrip (s : String) : String :=
  String.mk (List.reverse (dropLeading isPySpace
    (List.reverse (dropLeading isPySpace s.data))))

/-- Python's `str.lower()` (over the ASCII letters the repository compares). -/
def pyLower (s : String) : String :=
  String.mk (s.data.map Char.toLower)

/-- Python's `str.startswith` for a literal. -/
def strStartsWith (s pre : String) : Bool :=
  leadsWith pre.data s.data

/-- Python's `str.split("==")`: greedy left-to-right split on the two-character
separator, keeping empty segments. -/
def splitEqEq : List Char → List (List Char)
  | [] => [[]]
  | '=' :: '=' :: rest => [] :: splitEqEq rest
  | c :: rest =>
    match splitEqEq rest with
    | [] => [[c]]
    | seg :: segs => (c :: seg) :: segs

/-- The substring classification of `resolve_dependencies`:
`"not found" in stderr.lower() or "could not find a version" in stderr.lower()`. -/
def notFoundSignal (stderr : String) : Bool :=
  strContains (pyLower stderr) "not found" ||
    strContains (pyLower stderr) "could not find a version"

/-- The comment/blank filtering at the top of `resolve_dependencies`:
`[p.strip() for p in packages if p.strip() and not p.strip().startswith("#")]`. -/
def filterSpecs (packages : List String) : List String :=
  (packages.map pyStrip).filter (fun p => !(p == "") && !(strStartsWith p "#"))

/-- One line of the backend's standard output, parsed as the loop body of
`resolve_dependencies` does: skip blank lines and `#` lines, then
`name, version = line.split("==")` (which fails, and is skipped, unless the
split yields exactly two parts), storing the stripped name and version. -/
def parseLine (line : String) : Option (String × String) :=
  if !(line == "") && !(strStartsWith line "#") then
    match (splitEqEq line.data).map String.mk with
    | [n, v] => some (pyStrip n, pyStrip v)
    | _ => none
  else none

/-- Python dict assignment `dependencies[name] = version`: replace the value
of an existing key, otherwise append the new binding. -/
def dictInsert (d : List (String × String)) (k v : String) : List (String × String) :=
  if d.any (fun q => q.1 == k) then
    d.map (fun q => if q.1 == k then (k, v) else q)
  else d ++ [(k, v)]

/-- One step of the output-parsing loop of `resolve_dependencies`. -/
def parseDepsStep (d : List (String × String)) (line : String) : List (String × String) :=
  match parseLine line with
  | some (n, v) => dictInsert d n v
  | none => d

/-- The full output-parsing loop of `resolve_dependencies`, starting from the
empty dict. -/
def parseDeps (lines : List String) : List (String × String) :=
  lines.foldl parseDepsStep []

/-- `DependencyManager.resolve_dependencies`: filter comments and blanks,
fail with `DependencyConflictError "No dependencies to resolve"` when nothing
remains (before invoking the backend), classify a backend failure by the
`notFoundSignal` substring match, and otherwise parse the backend's output
lines into a name→version dict. -/
def resolve_dependencies (packages : List String)
    (backend : Except String (List String)) :
    Except LayerpackError (List (String × String)) :=
  let package_specs := filterSpecs packages
  if package_specs.isEmpty then
    Except.error (LayerpackError.dependencyConflictError "No dependencies to resolve")
  else
    match backend with
    | Except.error stderr =>
      if notFoundSignal stderr then
        Except.error (LayerpackError.packageNotFoundError
          ("Package not found: " ++ stderr))
      else
        Except.error (LayerpackError.dependencyConflictError
          ("Dependency resolution failed: " ++ stderr))
    | Except.ok lines => Except.ok (parseDeps lines)

/-! ## Layer assembler and pipeline orchestrator
(src/layerpack/packager.py, src/layerpack/layer_builder.py)

The filesystem is abstracted as a list of file entries, each a relative path
(list of components, the last being the file name) paired with its byte size.
`LayerBuilder.create_layer_structure` copies the entries of the packages
directory under the fixed site-packages subpath; `create_layer_from_packages`
then copies each downloaded item directly under the layer root, and
`_copy_source_files` copies each extra source under the layer root using its
base name. -/

/-- The fixed subpath created by `LayerBuilder.create_layer_structure`. -/
def sitePackagesPath : List String :=
  ["python", "lib", "python3.9", "site-packages"]

/-- The layer tree assembled by `create_layer_from_packages` (fresh run, no
name collisions): the contents of the `packages` directory passed to
`create_layer_structure` land under `sitePackagesPath`, the downloaded items
land directly under the layer root, and each extra source tree lands under
the layer root at its own base name. -/
def assembleLayerFiles (packagesDirFiles downloadedFiles : List (List String × ℕ))
    (sources : List (String × List (List String × ℕ))) : List (List String × ℕ) :=
  packagesDirFiles.map (fun e => (sitePackagesPath ++ e.1, e.2)) ++ downloadedFiles ++
    sources.flatMap (fun s => s.2.map (fun e => (s.1 :: e.1, e.2)))

/-- fnmatch `test_*.py`: the name is `test_` ++ anything ++ `.py`. -/
def matchTestUnderscore (name : String) : Bool :=
  leadsWith "test_".data name.data &&
    leadsWith ".py".data.reverse (name.data.drop 5).reverse

/-- fnmatch `*_test.py`: the name ends in `_test.py`. -/
def matchUnderscoreTest (name : String) : Bool :=
  leadsWith "_test.py".data.reverse name.data.reverse

/-- One `rglob(pattern)` deletion pass of `_remove_test_files` for a
file-name pattern (`test_*.py` or `*_test.py`): `rglob` matches files and
directories named by the pattern at any depth; a matched file is unlinked and
a matched directory is removed with its whole subtree, so a file entry
survives exactly when neither its own name nor any ancestor directory's name
matches. -/
def removeFilePatternPass (f : String → Bool)
    (entries : List (List String × ℕ)) : List (List String × ℕ) :=
  entries.filter (fun e => !(f (e.1.getLastD "") || e.1.dropLast.any f))

/-- One `rglob("<dname>/")` deletion pass of `_remove_test_files`
(`tests/` or `testing/`): the trailing slash matches directories only, which
are removed with their whole subtree. -/
def removeDirPass (dname : String)
    (entries : List (List String × ℕ)) : List (List String × ℕ) :=
  entries.filter (fun e => !(decide (dname ∈ e.1.dropLast)))

/-- `LambdaPackager._remove_test_files`: the four patterns applied in the
source's order. -/
def remove_test_files (entries : List (List String × ℕ)) : List (List String × ℕ) :=
  removeDirPass "testing" (removeDirPass "tests"
    (removeFilePatternPass matchUnderscoreTest
      (removeFilePatternPass matchTestUnderscore entries)))

/-- `LambdaPackager._get_direct_dependencies`: the source returns the empty
list (its body is `return []` under the comment "Implementation depends on
how requirements are stored"). -/
def get_direct_dependencies : List String := []

/-- `LambdaPackager._should_include_package`. -/
def should_include_package (cfg : LambdaPackagerConfig) (packageName : String) : Bool :=
  !(decide (packageName ∈ cfg.excludePackages)) &&
    (cfg.includeDependencies || decide (packageName ∈ get_direct_dependencies))

/-- The dependency-filtering step of `create_layer_from_packages`:
`{name: version for name, version in deps.items() if self._should_include_package(name)}`. -/
def filterIncludedDeps (cfg : LambdaPackagerConfig)
    (deps : List (String × String)) : List (String × String) :=
  deps.filter (fun d => should_include_package cfg d.1)

/-- The tail of `LambdaPackager.create_layer_from_packages` after assembly:
optionally strip test files, check the uncompressed tree size
(`_check_layer_size`), then call `create_zip` on
`str(self.output_dir / f"{layer_name}.zip")` — and return that string, not
`create_zip`'s result.  On success the result carries the returned path, the
path of the archive file `create_zip` actually wrote, and the paths stored in
the archive. -/
def create_layer_from_packages_tail (cfg : LambdaPackagerConfig)
    (assembled : List (List String × ℕ)) (zipSizeBytes : ℕ)
    (outputDir layerName : String) :
    Except LayerpackError (String × String × List (List String)) :=
  let files := if cfg.stripTestFiles then remove_test_files assembled else assembled
  let totalSize : ℕ := (files.map Prod.snd).sum
  if (totalSize : ℚ) / (1024 * 1024) > cfg.maxSizeMb then
    Except.error (LayerpackError.layerSizeLimitError
      ((totalSize : ℚ) / (1024 * 1024)) cfg.maxSizeMb)
  else
    let zip_path := outputDir ++ "/" ++ layerName ++ ".zip"
    match create_zip (some cfg.maxSizeMb) zip_path zipSizeBytes with
    | (Except.ok created, _) => Except.ok (zip_path, created, files.map Prod.fst)
    | (Except.error e, _) => Except.error e

/-- Modelled from the spec: the bare package name of a request string, which
no function under src/layerpack computes.  The spec describes a
`PackageRequest` as "parsed loosely (bracket/operator stripping) to extract a
bare name" with "lower-casing for comparison": keep the characters before the
first bracket, version operator or space, lower-cased. -/
def bareName (s : String) : String :=
  pyLower (String.mk (s.data.takeWhile (fun c =>
    !(c == '[' || c == '=' || c == '<' || c == '>' ||
      c == '!' || c == '~' || c == ' '))))

end Layerpack

namespace Layerpack

/-- Claim C10: with no maximum size configured (`max_size_mb = None`),
`create_zip` never fails with `LayerSizeLimitError` and always returns the
archive path, whatever the written archive's size; the file remains on disk. -/
theorem create_zip_no_limit_never_fails (output_path : String) (zipSizeBytes : ℕ) :
    create_zip none output_path zipSizeBytes =
      (Except.ok (output_path ++ ".zip"), true) := rfl

/-- Claim C1 (amended): if the configured maximum size is nonzero (Python
truthiness: a ceiling of `0` disables the check) and the archive's size in
megabytes (1024×1024-byte units) exceeds it, `create_zip` fails with
`LayerSizeLimitError` carrying the actual and the permitted size and the
archive file is deleted; otherwise it returns the archive path and the file
remains. -/
theorem create_zip_size_limit (m : ℚ) (output_path : String) (zipSizeBytes : ℕ)
    (hm : m ≠ 0) :
    ((zipSizeBytes : ℚ) / (1024 * 1024) > m →
      create_zip (some m) output_path zipSizeBytes =
        (Except.error (LayerpackError.layerSizeLimitError
          ((zipSizeBytes : ℚ) / (1024 * 1024)) m), false)) ∧
    (¬ ((zipSizeBytes : ℚ) / (1024 * 1024) > m) →
      create_zip (some m) output_path zipSizeBytes =
        (Except.ok (output_path ++ ".zip"), true)) := by
  constructor
  · intro hgt
    simp [create_zip, hm, hgt]
  · intro hle
    simp [create_zip, hm, hle]

/-- Witness for claim C1's amended theorem at a concrete input: ceiling 1 MB,
archive of 2×1024×1024 bytes. -/
theorem create_zip_size_limit_witness :
    create_zip (some 1) "layer" (2 * 1024 * 1024) =
      (Except.error (LayerpackError.layerSizeLimitError
        (((2 * 1024 * 1024 : ℕ) : ℚ) / (1024 * 1024)) 1), false) :=
  (create_zip_size_limit 1 "layer" (2 * 1024 * 1024) (by norm_num)).1 (by norm_num)

/-- Counterexample to claim C1 as stated: with a configured ceiling of 0 MB
and an archive of 1024×1024 bytes (1 MB, which exceeds 0), `create_zip`
returns the path and leaves the file on disk instead of failing, because
Python's `if self.max_size_mb:` treats a ceiling of 0 as unset. -/
theorem create_zip_zero_ceiling_counterexample :
    create_zip (some 0) "layer" (1024 * 1024) = (Except.ok "layer.zip", true) ∧
    ((1024 * 1024 : ℕ) : ℚ) / (1024 * 1024) > 0 := by
  constructor
  · rfl
  · norm_num

/-- Claim C7: configuration validation fails (necessarily with a
`ConfigurationError`) if and only if the optimization level is outside 0–2,
or the maximum size is not positive, or some compatible-runtime identifier is
outside the fixed supported set; the error's `config_key` names an offending
field.  Validation is a pure function of the configuration fields, performed
at construction before any I/O. -/
theorem lambda_packager_config_validation (cfg : LambdaPackagerConfig) :
    (validate_config cfg = Except.ok () ↔
      ((0 ≤ cfg.optimizationLevel ∧ cfg.optimizationLevel ≤ 2) ∧
        0 < cfg.maxSizeMb ∧ ∀ r ∈ cfg.compatibleRuntimes, r ∈ validRuntimes)) ∧
    (∀ msg key, validate_config cfg = Except.error (LayerpackError.configurationError msg key) →
      (key = "optimization_level" ∧ ¬ (0 ≤ cfg.optimizationLevel ∧ cfg.optimizationLevel ≤ 2)) ∨
      (key = "max_size_mb" ∧ cfg.maxSizeMb ≤ 0) ∨
      (key = "compatible_runtimes" ∧ ∃ r ∈ cfg.compatibleRuntimes, r ∉ validRuntimes)) ∧
    (∀ e, validate_config cfg = Except.error e →
      ∃ msg key, e = LayerpackError.configurationError msg key) := by
  by_cases hopt : 0 ≤ cfg.optimizationLevel ∧ cfg.optimizationLevel ≤ 2
  · by_cases hsz : cfg.maxSizeMb ≤ 0
    · have hval : validate_config cfg = Except.error (LayerpackError.configurationError
          "Maximum size must be positive" "max_size_mb") := by
        simp [validate_config, hopt, hsz]
      refine ⟨?_, ?_, ?_⟩
      · rw [hval]
        exact iff_of_false (by simp) (fun h => absurd h.2.1 (not_lt.mpr hsz))
      · intro msg key hkey
        rw [hval] at hkey
        simp only [Except.error.injEq, LayerpackError.configurationError.injEq] at hkey
        exact Or.inr (Or.inl ⟨hkey.2.symm, hsz⟩)
      · intro e he
        rw [hval] at he
        exact ⟨_, _, ((Except.error.injEq _ _).mp he).symm⟩
    · by_cases hrt : cfg.compatibleRuntimes.filter (fun r => decide (r ∉ validRuntimes)) = []
      · have hall : ∀ r ∈ cfg.compatibleRuntimes, r ∈ validRuntimes := by
          intro r hr
          by_contra hnot
          have hmem : r ∈ cfg.compatibleRuntimes.filter
              (fun r => decide (r ∉ validRuntimes)) :=
            List.mem_filter.mpr ⟨hr, decide_eq_true hnot⟩
          rw [hrt] at hmem
          exact absurd hmem (List.not_mem_nil r)
        have hval : validate_config cfg = Except.ok () := by
          simp only [validate_config, hopt, hsz, hrt]
          simp [hall]
        refine ⟨?_, ?_, ?_⟩
        · rw [hval]
          exact iff_of_true rfl ⟨hopt, lt_of_not_le hsz, hall⟩
        · intro msg key hkey
          rw [hval] at hkey
          exact absurd hkey (by simp)
        · intro e he
          rw [hval] at he
          exact absurd he (by simp)
      · have hbad : ∃ r ∈ cfg.compatibleRuntimes, r ∉ validRuntimes := by
          obtain ⟨r, hr⟩ := List.exists_mem_of_ne_nil _ hrt
          have hr2 := List.mem_filter.mp hr
          exact ⟨r, hr2.1, of_decide_eq_true hr2.2⟩
        have hval : validate_config cfg = Except.error (LayerpackError.configurationError
            ("Invalid runtimes: " ++ String.intercalate ", "
              (cfg.compatibleRuntimes.filter (fun r => decide (r ∉ validRuntimes))))
            "compatible_runtimes") := by
          simp [validate_config, hopt, hsz, hrt, hbad]
        refine ⟨?_, ?_, ?_⟩
        · rw [hval]
          refine iff_of_false (by simp) ?_
          intro h
          obtain ⟨r, hr, hnot⟩ := hbad
          exact hnot (h.2.2 r hr)
        · intro msg key hkey
          rw [hval] at hkey
          simp only [Except.error.injEq, LayerpackError.configurationError.injEq] at hkey
          exact Or.inr (Or.inr ⟨hkey.2.symm, hbad⟩)
        · intro e he
          rw [hval] at he
          exact ⟨_, _, ((Except.error.injEq _ _).mp he).symm⟩
  · have hval : validate_config cfg = Except.error (LayerpackError.configurationError
        "Invalid optimization level. Must be 0, 1, or 2" "optimization_level") := by
      simp [validate_config, hopt]
    refine ⟨?_, ?_, ?_⟩
    · rw [hval]
      exact iff_of_false (by simp) (fun h => hopt h.1)
    · intro msg key hkey
      rw [hval] at hkey
      simp only [Except.error.injEq, LayerpackError.configurationError.injEq] at hkey
      exact Or.inl ⟨hkey.2.symm, hopt⟩
    · intro e he
      rw [hval] at he
      exact ⟨_, _, ((Except.error.injEq _ _).mp he).symm⟩

/-- Witness for claim C7 at the spec's scenario: optimization level 5 makes
construction fail, so validation does not succeed. -/
theorem lambda_packager_config_validation_witness :
    validate_config { optimizationLevel := 5 } ≠ Except.ok () := by
  intro hc
  have h := (lambda_packager_config_validation { optimizationLevel := 5 }).1.mp hc
  have h5 : ((5 : ℤ) ≤ 2) := h.1.2
  norm_num at h5

/-- Claim C3: when the filtered request list is non-empty and the backend
subprocess fails, `resolve_dependencies` fails with `PackageNotFoundError`
exactly when the backend's error output contains a "not found" or
"could not find a version" signal (case-insensitively), and with
`DependencyConflictError` carrying the backend's raw error text otherwise —
never the other way round. -/
theorem resolve_dependencies_error_classification (packages : List String)
    (stderr : String) (hne : filterSpecs packages ≠ []) :
    (notFoundSignal stderr = true →
      resolve_dependencies packages (Except.error stderr) =
        Except.error (LayerpackError.packageNotFoundError
          ("Package not found: " ++ stderr))) ∧
    (notFoundSignal stderr = false →
      resolve_dependencies packages (Except.error stderr) =
        Except.error (LayerpackError.dependencyConflictError
          ("Dependency resolution failed: " ++ stderr))) := by
  have hie : (filterSpecs packages).isEmpty = false := by
    cases hfs : filterSpecs packages with
    | nil => exact absurd hfs hne
    | cons a l => rfl
  constructor
  · intro hsig
    simp [resolve_dependencies, hie, hsig]
  · intro hsig
    simp [resolve_dependencies, hie, hsig]

/-- Witness for claim C3 at the repository's own test scenario: a backend
failure whose error output reports "Could not find a version" classifies as
`PackageNotFoundError`. -/
theorem resolve_dependencies_error_classification_witness :
    resolve_dependencies ["nonexistent-package"]
      (Except.error "ERROR: Could not find a version that satisfies the requirement nonexistent-package") =
    Except.error (LayerpackError.packageNotFoundError
      ("Package not found: " ++ "ERROR: Could not find a version that satisfies the requirement nonexistent-package")) :=
  (resolve_dependencies_error_classification ["nonexistent-package"]
    "ERROR: Could not find a version that satisfies the requirement nonexistent-package"
    (by decide)).1 (by decide)

/-- Claim C4 (amended): when the request list is empty after stripping
comments and blanks, `resolve_dependencies` fails with
`DependencyConflictError "No dependencies to resolve"` — the repository
defines no `NoInputError` — independently of the backend, so before any
backend invocation, and never returns a mapping. -/
theorem resolve_dependencies_empty_input (packages : List String)
    (backend : Except String (List String)) (h : filterSpecs packages = []) :
    resolve_dependencies packages backend =
      Except.error (LayerpackError.dependencyConflictError "No dependencies to resolve") := by
  simp [resolve_dependencies, h]

/-- Witness for claim C4's amended theorem: a list of one comment entry and
one blank entry fails with the conflict error whatever the backend does. -/
theorem resolve_dependencies_empty_input_witness :
    resolve_dependencies ["# a comment", "   "] (Except.ok ["alpha==1.0"]) =
      Except.error (LayerpackError.dependencyConflictError "No dependencies to resolve") :=
  resolve_dependencies_empty_input ["# a comment", "   "] (Except.ok ["alpha==1.0"])
    (by decide)

/-- Counterexample to claim C4 as stated: `resolve_dependencies []` fails
with `DependencyConflictError`, which is not the no-input error kind the
claim names (no `NoInputError` class exists in the repository). -/
theorem resolve_dependencies_no_input_counterexample :
    resolve_dependencies [] (Except.ok []) =
      Except.error (LayerpackError.dependencyConflictError "No dependencies to resolve") ∧
    LayerpackError.isNoInput
      (LayerpackError.dependencyConflictError "No dependencies to resolve") = false := by
  exact ⟨rfl, rfl⟩

/-- Key monotonicity of `dictInsert`: inserting never loses a key. -/
theorem dictInsert_keys_mono (d : List (String × String)) (k v a : String)
    (ha : a ∈ d.map Prod.fst) : a ∈ (dictInsert d k v).map Prod.fst := by
  unfold dictInsert
  by_cases h : d.any (fun q => q.1 == k)
  · rw [if_pos h]
    obtain ⟨q, hq, rfl⟩ := List.mem_map.mp ha
    refine List.mem_map.mpr ⟨(if q.1 == k then (k, v) else q), List.mem_map.mpr ⟨q, hq, rfl⟩, ?_⟩
    by_cases hk : q.1 = k <;> simp [hk]
  · rw [if_neg h, List.map_append]
    exact List.mem_append_left _ ha

/-- `dictInsert` always makes its key present. -/
theorem dictInsert_mem_self (d : List (String × String)) (k v : String) :
    k ∈ (dictInsert d k v).map Prod.fst := by
  unfold dictInsert
  by_cases h : d.any (fun q => q.1 == k)
  · rw [if_pos h]
    obtain ⟨q, hq, hqk⟩ := List.any_eq_true.mp h
    exact List.mem_map.mpr ⟨(k, v), List.mem_map.mpr ⟨q, hq, by simp [hqk]⟩, rfl⟩
  · rw [if_neg h, List.map_append]
    exact List.mem_append_right _ (by simp)

/-- A key parsed from any line of the backend output is a key of the parsed
dict (stated over the fold with a general accumulator). -/
theorem parseDeps_keys (lines : List String) (d : List (String × String)) (n : String)
    (h : n ∈ d.map Prod.fst ∨ ∃ line ∈ lines, ∃ v, parseLine line = some (n, v)) :
    n ∈ (lines.foldl parseDepsStep d).map Prod.fst := by
  induction lines generalizing d with
  | nil =>
    rcases h with hd | ⟨line, hline, _⟩
    · simpa using hd
    · exact absurd hline (List.not_mem_nil line)
  | cons line rest ih =>
    rw [List.foldl_cons]
    apply ih
    rcases h with hd | ⟨l, hl, v, hpl⟩
    · left
      unfold parseDepsStep
      cases hp : parseLine line with
      | none => exact hd
      | some p => exact dictInsert_keys_mono _ _ _ _ hd
    · rcases List.mem_cons.mp hl with rfl | hl2
      · left
        unfold parseDepsStep
        rw [hpl]
        exact dictInsert_mem_self _ _ _
      · right
        exact ⟨l, hl2, v, hpl⟩

/-- Claim C9 (amended): on a non-empty filtered request list and a successful
backend run, `resolve_dependencies` returns exactly the dict parsed from the
backend's `name==version` output lines; whenever that output pins each
request (some line's name lower-cases to the request's bare name), the
returned keys are, case-insensitively, a superset of the requests' bare
names. -/
theorem resolve_dependencies_keys_superset (packages lines : List String)
    (hne : filterSpecs packages ≠ [])
    (hcov : ∀ p ∈ filterSpecs packages,
      ∃ line ∈ lines, ∃ n v, parseLine line = some (n, v) ∧ pyLower n = bareName p) :
    resolve_dependencies packages (Except.ok lines) = Except.ok (parseDeps lines) ∧
    ∀ p ∈ filterSpecs packages,
      bareName p ∈ (parseDeps lines).map (fun q => pyLower q.1) := by
  have hie : (filterSpecs packages).isEmpty = false := by
    cases hfs : filterSpecs packages with
    | nil => exact absurd hfs hne
    | cons a l => rfl
  constructor
  · simp [resolve_dependencies, hie]
  · intro p hp
    obtain ⟨line, hline, n, v, hpl, hlow⟩ := hcov p hp
    have hkey : n ∈ (parseDeps lines).map Prod.fst :=
      parseDeps_keys lines [] n (Or.inr ⟨line, hline, v, hpl⟩)
    obtain ⟨q, hq, hq1⟩ := List.mem_map.mp hkey
    exact List.mem_map.mpr ⟨q, hq, by rw [hq1, hlow]⟩

/-- Witness for claim C9's amended theorem: request `Alpha[extra]>=1.0`
(bare name `alpha`) with backend output line `alpha==1.0`. -/
theorem resolve_dependencies_keys_superset_witness :
    resolve_dependencies ["Alpha[extra]>=1.0"] (Except.ok ["alpha==1.0"]) =
      Except.ok (parseDeps ["alpha==1.0"]) ∧
    ∀ p ∈ filterSpecs ["Alpha[extra]>=1.0"],
      bareName p ∈ (parseDeps ["alpha==1.0"]).map (fun q => pyLower q.1) := by
  apply resolve_dependencies_keys_superset
  · decide
  · intro p hp
    have hfs : filterSpecs ["Alpha[extra]>=1.0"] = ["Alpha[extra]>=1.0"] := by decide
    rw [hfs] at hp
    have hp2 : p = "Alpha[extra]>=1.0" := by simpa using hp
    subst hp2
    exact ⟨"alpha==1.0", by simp, "alpha", "1.0", by decide, by decide⟩

/-- Counterexample to claim C9 as stated: for the non-empty request list
`["alpha"]`, a backend run that succeeds with no output lines (possible with
the `pip freeze` fallback in an empty environment) yields an empty mapping,
whose keys are not a superset of the requests' bare names. -/
theorem resolve_dependencies_superset_counterexample :
    ¬ ∃ d, resolve_dependencies ["alpha"] (Except.ok []) = Except.ok d ∧
      ∀ p ∈ ["alpha"], bareName p ∈ d.map (fun q => pyLower q.1) := by
  rintro ⟨d, hd, hall⟩
  have hres : resolve_dependencies ["alpha"] (Except.ok []) =
      Except.ok ([] : List (String × String)) := rfl
  rw [hres] at hd
  obtain rfl : ([] : List (String × String)) = d := (Except.ok.injEq _ _).mp hd
  have := hall "alpha" (by simp)
  simp at this

/-- Helper: any entry surviving `remove_test_files` has no component matching
the test-file patterns and no directory component named `tests` or
`testing`. -/
theorem remove_test_files_clean (entries : List (List String × ℕ))
    (e : List String × ℕ) (he : e ∈ remove_test_files entries) :
    (matchTestUnderscore (e.1.getLastD "") = false ∧
      matchUnderscoreTest (e.1.getLastD "") = false) ∧
    ∀ c ∈ e.1.dropLast, matchTestUnderscore c = false ∧ matchUnderscoreTest c = false ∧
      c ≠ "tests" ∧ c ≠ "testing" := by
  unfold remove_test_files at he
  have h4 := List.mem_filter.mp he
  have h3 := List.mem_filter.mp h4.1
  have h2 := List.mem_filter.mp h3.1
  have h1 := List.mem_filter.mp h2.1
  have hb1 := h1.2
  have hb2 := h2.2
  have hb3 := h3.2
  have hb4 := h4.2
  simp only [Bool.not_eq_true', Bool.or_eq_false_iff, decide_eq_false_iff_not] at hb1 hb2 hb3 hb4
  refine ⟨⟨hb1.1, hb2.1⟩, ?_⟩
  intro c hc
  refine ⟨?_, ?_, ?_, ?_⟩
  · by_contra hcm
    have : e.1.dropLast.any matchTestUnderscore = true :=
      List.any_eq_true.mpr ⟨c, hc, by simpa using hcm⟩
    rw [hb1.2] at this
    exact Bool.false_ne_true this
  · by_contra hcm
    have : e.1.dropLast.any matchUnderscoreTest = true :=
      List.any_eq_true.mpr ⟨c, hc, by simpa using hcm⟩
    rw [hb2.2] at this
    exact Bool.false_ne_true this
  · intro hcm
    exact hb3 (hcm ▸ hc)
  · intro hcm
    exact hb4 (hcm ▸ hc)

/-- Claim C5: when `strip_test_files` is enabled, the strip step runs before
the size check and before archiving, and every path stored in the final
archive has a file name matching neither `test_*.py` nor `*_test.py`, no
directory component matching those patterns, and no directory component named
`tests` or `testing`. -/
theorem strip_test_files_clean (cfg : LambdaPackagerConfig)
    (assembled : List (List String × ℕ)) (zipSizeBytes : ℕ)
    (outputDir layerName : String) (hstrip : cfg.stripTestFiles = true)
    (ret created : String) (contents : List (List String))
    (hok : create_layer_from_packages_tail cfg assembled zipSizeBytes outputDir layerName =
      Except.ok (ret, created, contents)) :
    ∀ q ∈ contents,
      (matchTestUnderscore (q.getLastD "") = false ∧
        matchUnderscoreTest (q.getLastD "") = false) ∧
      ∀ c ∈ q.dropLast, matchTestUnderscore c = false ∧ matchUnderscoreTest c = false ∧
        c ≠ "tests" ∧ c ≠ "testing" := by
  have hcontents : contents = (remove_test_files assembled).map Prod.fst := by
    unfold create_layer_from_packages_tail at hok
    rw [hstrip] at hok
    simp only [if_true] at hok
    split at hok
    · exact absurd hok (by simp)
    · split at hok
      · have := (Except.ok.injEq _ _).mp hok
        exact (Prod.mk.injEq _ _ _ _ |>.mp ((Prod.mk.injEq _ _ _ _ |>.mp this).2)).2.symm
      · exact absurd hok (by simp)
  intro q hq
  rw [hcontents] at hq
  obtain ⟨e, he, rfl⟩ := List.mem_map.mp hq
  exact remove_test_files_clean assembled e he

/-- Helper: evaluation of the pipeline tail when neither size check
triggers. -/
theorem create_layer_tail_ok_eval (cfg : LambdaPackagerConfig)
    (assembled : List (List String × ℕ)) (zipSizeBytes : ℕ)
    (outputDir layerName : String)
    (hsize : ¬ ((((if cfg.stripTestFiles then remove_test_files assembled
        else assembled).map Prod.snd).sum : ℚ) / (1024 * 1024) > cfg.maxSizeMb))
    (hzip : ¬ ((zipSizeBytes : ℚ) / (1024 * 1024) > cfg.maxSizeMb))
    (hmz : cfg.maxSizeMb ≠ 0) :
    create_layer_from_packages_tail cfg assembled zipSizeBytes outputDir layerName =
      Except.ok (outputDir ++ "/" ++ layerName ++ ".zip",
        outputDir ++ "/" ++ layerName ++ ".zip" ++ ".zip",
        (if cfg.stripTestFiles then remove_test_files assembled
          else assembled).map Prod.fst) := by
  have hcz : create_zip (some cfg.maxSizeMb) (outputDir ++ "/" ++ layerName ++ ".zip")
      zipSizeBytes =
      (Except.ok (outputDir ++ "/" ++ layerName ++ ".zip" ++ ".zip"), true) := by
    simp [create_zip, hmz, hzip]
  simp only [create_layer_from_packages_tail]
  rw [if_neg hsize, hcz]

/-- Witness for claim C5: default configuration (stripping enabled), an
assembled tree holding `alpha/__init__.py` and `alpha/tests/test_alpha.py`;
the surviving archive path `alpha/__init__.py` is clean. -/
theorem strip_test_files_clean_witness :
    (matchTestUnderscore ((["alpha", "__init__.py"] : List String).getLastD "") = false ∧
      matchUnderscoreTest ((["alpha", "__init__.py"] : List String).getLastD "") = false) ∧
    ∀ c ∈ (["alpha", "__init__.py"] : List String).dropLast,
      matchTestUnderscore c = false ∧ matchUnderscoreTest c = false ∧
        c ≠ "tests" ∧ c ≠ "testing" := by
  have hok : create_layer_from_packages_tail { }
      [(["alpha", "__init__.py"], 10), (["alpha", "tests", "test_alpha.py"], 5)]
      100 "dist" "layer1" =
      Except.ok ("dist/layer1.zip", "dist/layer1.zip.zip", [["alpha", "__init__.py"]]) := by
    have h := create_layer_tail_ok_eval { }
      [(["alpha", "__init__.py"], 10), (["alpha", "tests", "test_alpha.py"], 5)]
      100 "dist" "layer1"
      (by
        have hsum : (((if ({ } : LambdaPackagerConfig).stripTestFiles then
            remove_test_files [(["alpha", "__init__.py"], 10),
              (["alpha", "tests", "test_alpha.py"], 5)]
            else [(["alpha", "__init__.py"], 10),
              (["alpha", "tests", "test_alpha.py"], 5)]).map Prod.snd).sum) = 10 := by
          decide
        rw [hsum]
        norm_num)
      (by norm_num)
      (by norm_num)
    rw [h]
    decide
  exact strip_test_files_clean { }
    [(["alpha", "__init__.py"], 10), (["alpha", "tests", "test_alpha.py"], 5)]
    100 "dist" "layer1" rfl "dist/layer1.zip" "dist/layer1.zip.zip"
    [["alpha", "__init__.py"]] hok ["alpha", "__init__.py"] (by decide)

/-- Claim C2 evaluated at a failing input (code_bug): on a fresh run the
`packages` directory passed to `create_layer_structure` is empty, so
`site-packages` stays empty, and the downloaded package trees are copied
directly under the layer root: the resolved package `alpha` ends up at
`alpha/__init__.py`, not at `python/lib/python3.9/site-packages/alpha/...`
as the spec's layout requires. -/
theorem packages_misplaced_at_layer_root :
    (∀ downloadedFiles : List (List String × ℕ),
      assembleLayerFiles [] downloadedFiles [] = downloadedFiles) ∧
    assembleLayerFiles [] [(["alpha", "__init__.py"], 10)] [] =
      [(["alpha", "__init__.py"], 10)] ∧
    (sitePackagesPath ++ ["alpha", "__init__.py"], 10) ∉
      assembleLayerFiles [] [(["alpha", "__init__.py"], 10)] [] := by
  refine ⟨?_, by decide, by decide⟩
  intro downloadedFiles
  simp [assembleLayerFiles]

/-- Claim C8 evaluated at a failing input (code_bug):
`create_layer_from_packages` returns `dist/test-layer.zip`, but `create_zip`
appends a second `.zip` to the path it is given, so the archive file is
actually written at `dist/test-layer.zip.zip` and no file exists at the
returned path. -/
theorem create_layer_zip_path_mismatch :
    create_layer_from_packages_tail { } [(["alpha", "__init__.py"], 10)] 100
      "dist" "test-layer" =
      Except.ok ("dist/test-layer.zip", "dist/test-layer.zip.zip",
        [["alpha", "__init__.py"]]) ∧
    "dist/test-layer.zip" ≠ "dist/test-layer.zip.zip" := by
  constructor
  · have h := create_layer_tail_ok_eval { } [(["alpha", "__init__.py"], 10)] 100
      "dist" "test-layer"
      (by
        have hsum : (((if ({ } : LambdaPackagerConfig).stripTestFiles then
            remove_test_files [(["alpha", "__init__.py"], 10)]
            else [(["alpha", "__init__.py"], 10)]).map Prod.snd).sum) = 10 := by
          decide
        rw [hsum]
        norm_num)
      (by norm_num)
      (by norm_num)
    rw [h]
    decide
  · decide

/-- Claim C6 evaluated at a failing input (code_bug):
`_get_direct_dependencies` is a stub returning `[]`, so with
`include_dependencies = False` the filtering step drops every resolved
package — including `alpha`, the bare name of the direct request
`alpha==1.0`, which the claim says must be kept. -/
theorem direct_dependencies_filter_drops_all :
    filterIncludedDeps { includeDependencies := false } [("alpha", "1.0")] = [] ∧
    filterIncludedDeps { excludePackages := ["beta"] }
      [("alpha", "1.0"), ("beta", "2.0")] = [("alpha", "1.0")] ∧
    bareName "alpha==1.0" = "alpha" ∧
    get_direct_dependencies = [] := by
  exact ⟨by decide, by decide, by decide, rfl⟩

end Layerpack
